import Mathlib

/-!
Shallow embedding of the subtitle overlay controller in
`src/scripts/content.ts` (class `SubtitlesManager`).

JavaScript numbers that are always finite in the code paths under study
(playback times, pixel geometry, style knobs) are modelled as rationals.
The sync offset, which the code explicitly guards against being
non-numeric or non-finite, is modelled by the inductive `JSNumber` so
that `NaN` and the infinities are representable.

The DOM is modelled explicitly: the document carries the list of `video`
elements, the current fullscreen element (if any), and the list of
attached subtitle shadow-host nodes together with the parent each one is
attached to.  Methods of the class become functions from (document
state, manager state) to (document state, manager state, return value).
-/

/-- A JavaScript `number` as far as the sync-offset handling needs it:
a finite value, `NaN`, `Infinity` or `-Infinity`. -/
inductive JSNumber where
  | num (q : ℚ)
  | nan
  | posInf
  | negInf
deriving DecidableEq, Repr

/-- Caption entry (`Subtitle` from `src/context/subtitles`): start and end
playback times in seconds and the caption text.  The field `end` of the
source is written `«end»`. -/
structure Subtitle where
  start : ℚ
  «end» : ℚ
  text : String
deriving DecidableEq, Repr

/-- Settings record (`SubtitleSettings` from `src/context/settings`), the
flat record of presentation knobs used by `content.ts`. -/
structure SubtitleSettings where
  syncOffset : JSNumber
  fontSize : ℚ
  fontColor : String
  background : Bool
  backgroundColor : String
  fontFamily : String
  offsetFromBottom : ℚ
  textShadow : Bool
  shadowColor : String
  verticalPadding : ℚ
  horizontalPadding : ℚ
deriving DecidableEq, Repr

/-- The `VideoTarget` descriptor of `content.ts`.  `videoId` is an optional
string; `videoIndex` may likewise be `undefined` at runtime (the code
checks `target.videoIndex !== undefined`), so both are options. -/
structure VideoTarget where
  frameId : Int
  documentId : String
  videoIndex : Option Int
  videoId : Option String
deriving DecidableEq, Repr

/-- A `video` element as the controller observes it: its `id` attribute
(`""` when the attribute is absent, as in the DOM) and its current
playback time. -/
structure VideoElem where
  id : String
  currentTime : ℚ
deriving DecidableEq, Repr

/-- Result of `getBoundingClientRect()` on the video. -/
structure DOMRect where
  bottom : ℚ
  left : ℚ
  width : ℚ
deriving DecidableEq, Repr

/-- Where a shadow-host node is attached in the document tree: the normal
document body, or the subtree of the fullscreen element with the given
identifier. -/
inductive MountParent where
  | body
  | fullscreenElem (id : Nat)
deriving DecidableEq, Repr

/-- The shadow-host mount node (`this.shadowHost`): a node identity and the
`style.top` / `style.left` coordinates written by
`updateSubtitlePosition` (`none` before the first successful update). -/
structure ShadowHostNode where
  id : Nat
  top : Option ℚ
  left : Option ℚ
deriving DecidableEq, Repr

/-- The derived presentation block that `applyStyles` assigns to the
subtitle element's `style.cssText`. -/
structure StyleBlock where
  color : String
  fontSize : ℚ
  fontFamily : String
  verticalPadding : ℚ
  horizontalPadding : ℚ
  backgroundColor : String
  textShadow : String
deriving DecidableEq, Repr

/-- The inner subtitle content node (`this.subtitleElement`): its
`textContent` (`none` when cleared/empty), its `style.display`
(`none` meaning "not yet set": assigning `cssText` resets it), and the
presentation block last assigned by `applyStyles`. -/
structure ContentNode where
  textContent : Option String
  display : Option String
  style : Option StyleBlock
deriving DecidableEq, Repr

/-- Document-side state: the `video` elements in document order, the
current `document.fullscreenElement` (by identifier), and the subtitle
shadow hosts currently attached to the tree, each with its parent. -/
structure Doc where
  videos : List VideoElem
  fullscreenElement : Option Nat
  attachedHosts : List (Nat × MountParent)
deriving DecidableEq, Repr

/-- Per-call DOM environment: the outcome of reading the video's bounding
box (`.error` models `getBoundingClientRect` throwing) and the current
`window.scrollY`. -/
structure DomEnv where
  rectResult : Except Unit DOMRect
  scrollY : ℚ
deriving Repr

/-- The mutable fields of the `SubtitlesManager` instance.  The listener
fields record which listeners/observers have been attached
(`timeupdateListeners` counts `timeupdate` registrations on the video). -/
structure ManagerState where
  subtitles : List Subtitle
  video : Option VideoElem
  subtitleElement : Option ContentNode
  shadowHost : Option ShadowHostNode
  shadowRoot : Bool
  resizeObserver : Bool
  scrollHandler : Bool
  fullscreenHandler : Bool
  isFullscreen : Bool
  settings : Option SubtitleSettings
  timeupdateListeners : Nat
deriving DecidableEq, Repr

/-- The state of a freshly constructed `SubtitlesManager`. -/
def initialState : ManagerState :=
  { subtitles := []
    video := none
    subtitleElement := none
    shadowHost := none
    shadowRoot := false
    resizeObserver := false
    scrollHandler := false
    fullscreenHandler := false
    isFullscreen := false
    settings := none
    timeupdateListeners := 0 }

/-- Modelled from the spec: the helper `isValidTimeOffset` lives in
`src/utils/isValidTimeOffset`, which is not among the provided sources;
per the spec the sync offset passes the validity check exactly when it is
numeric and finite (`undefined`, `NaN` and the infinities fail it). -/
def isValidTimeOffset : Option JSNumber → Bool
  | some (JSNumber.num _) => true
  | _ => false

/-- Numeric value of a `JSNumber` that passed the validity check. -/
def JSNumber.toRat : JSNumber → ℚ
  | .num q => q
  | _ => 0

/-- The `timeOffset` as computed by `updateSubtitleContent`:
`isValidTimeOffset(this.settings?.syncOffset) ? this.settings.syncOffset : 0`. -/
def effectiveTimeOffset (settings : Option SubtitleSettings) : ℚ :=
  let off := settings.map (fun st => st.syncOffset)
  if isValidTimeOffset off then (off.map JSNumber.toRat).getD 0 else 0

/-- The adjusted time: `adjustedTime = currentTime + timeOffset`. -/
def adjustedTime (v : VideoElem) (settings : Option SubtitleSettings) : ℚ :=
  v.currentTime + effectiveTimeOffset settings

/-- The linear scan of `updateSubtitleContent`:
`this.subtitles.find((sub) => sub.start <= adjustedTime && sub.end >= adjustedTime)`. -/
def activeSubtitle (subs : List Subtitle) (t : ℚ) : Option Subtitle :=
  subs.find? (fun sub => decide (sub.start ≤ t) && decide (sub.«end» ≥ t))

/-- Model of `updateSubtitleContent` (content.ts lines 261–290). -/
def updateSubtitleContent (s : ManagerState) : ManagerState × Bool :=
  match s.subtitleElement, s.video with
  | some el, some v =>
    let t := adjustedTime v s.settings
    match activeSubtitle s.subtitles t with
    | none =>
      ({ s with subtitleElement := some { el with textContent := none, display := some "none" } },
       false)
    | some sub =>
      ({ s with subtitleElement := some { el with display := some "block", textContent := some sub.text } },
       true)
  | _, _ => (s, false)

/-- JavaScript indexing `videos[i]` for a possibly negative index. -/
def jsElemAt (videos : List VideoElem) (i : Int) : Option VideoElem :=
  if 0 ≤ i then videos.get? i.toNat else none

/-- JavaScript truthiness of the optional `videoId` string:
`undefined` and `""` are falsy. -/
def videoIdTruthy : Option String → Bool
  | some s => decide (s ≠ "")
  | none => false

/-- Model of `findTargetVideo` (content.ts lines 292–305).  `if (target.videoId)`
is a truthiness test, so an empty-string id falls through to the index
branch. -/
def findTargetVideo (target : VideoTarget) (videos : List VideoElem) : Option VideoElem :=
  if videoIdTruthy target.videoId then
    match target.videoId with
    | some vid => videos.find? (fun v => decide (v.id = vid))
    | none => none
  else
    match target.videoIndex with
    | some i => jsElemAt videos i
    | none => videos.head?

/-- The pure derivation of the presentation block from a settings record,
as written inline in `applyStyles` (content.ts lines 126–151). -/
def derivedStyle (st : SubtitleSettings) : StyleBlock :=
  { color := st.fontColor
    fontSize := st.fontSize
    fontFamily := st.fontFamily
    verticalPadding := st.verticalPadding
    horizontalPadding := st.horizontalPadding
    backgroundColor := if st.background then st.backgroundColor else "transparent"
    textShadow := if st.textShadow then "2px 2px 4px " ++ st.shadowColor else "none" }

/-- Model of `applyStyles` (content.ts lines 126–151).  Assigning `style.cssText`
replaces the whole inline style, so the `display` previously written by
`updateSubtitleContent` is reset. -/
def applyStyles (s : ManagerState) : ManagerState :=
  match s.subtitleElement, s.settings with
  | some el, some st =>
    { s with subtitleElement := some { el with style := some (derivedStyle st), display := none } }
  | _, _ => s

/-- Model of `updateSubtitlePosition` (content.ts lines 241–259). -/
def updateSubtitlePosition (env : DomEnv) (s : ManagerState) : ManagerState × Bool :=
  match s.shadowHost, s.video, s.settings with
  | some host, some _, some st =>
    match env.rectResult with
    | Except.error _ => (s, false)
    | Except.ok rect =>
      let subtitleTop := rect.bottom - st.offsetFromBottom + env.scrollY
      let subtitleLeft := rect.left + rect.width / 2
      ({ s with shadowHost := some { host with top := some subtitleTop, left := some subtitleLeft } },
       true)
  | _, _, _ => (s, false)

/-- DOM `appendChild`: attaching a node to a parent first detaches it from any
current parent. -/
def attachHost (doc : Doc) (hostId : Nat) (parent : MountParent) : Doc :=
  { doc with attachedHosts :=
      (doc.attachedHosts.filter (fun p => p.1 ≠ hostId)) ++ [(hostId, parent)] }

/-- DOM `node.remove()`: detach the node from the tree. -/
def detachHost (doc : Doc) (hostId : Nat) : Doc :=
  { doc with attachedHosts := doc.attachedHosts.filter (fun p => p.1 ≠ hostId) }

/-- Model of `appendSubtitleElement` (content.ts lines 153–167): recompute the
fullscreen flag and append the shadow host to the fullscreen element's
subtree, else to the document body. -/
def appendSubtitleElement (doc : Doc) (s : ManagerState) : Doc × ManagerState :=
  match s.shadowHost with
  | none => (doc, s)
  | some host =>
    let isFs := doc.fullscreenElement.isSome
    let s := { s with isFullscreen := isFs }
    if isFs then
      match doc.fullscreenElement with
      | some fid => (attachHost doc host.id (MountParent.fullscreenElem fid), s)
      | none => (attachHost doc host.id MountParent.body, s)
    else
      (attachHost doc host.id MountParent.body, s)

/-- Model of `removeSubtitleElement` (content.ts lines 169–178): remove the shadow
host from the tree and null out host, shadow root and content node. -/
def removeSubtitleElement (doc : Doc) (s : ManagerState) : Doc × ManagerState :=
  let doc :=
    match s.shadowHost with
    | some host => detachHost doc host.id
    | none => doc
  (doc, { s with shadowHost := none, shadowRoot := false, subtitleElement := none })

/-- Model of `addSubtitleElement` (content.ts lines 90–124).  `newId` is the
identity of the freshly created shadow-host DOM node. -/
def addSubtitleElement (env : DomEnv) (doc : Doc) (s : ManagerState) (newId : Nat) :
    Doc × ManagerState × Bool :=
  match s.video, s.settings with
  | some _, some _ =>
    let (doc, s) := removeSubtitleElement doc s
    let s := { s with shadowHost := some { id := newId, top := none, left := none } }
    let s := { s with shadowRoot := true }
    let s := { s with subtitleElement := some { textContent := none, display := none, style := none } }
    let s := applyStyles s
    let s := (updateSubtitlePosition env s).1
    let s := (updateSubtitleContent s).1
    let (doc, s) := appendSubtitleElement doc s
    (doc, s, true)
  | _, _ => (doc, s, false)

/-- Model of `attachEventListeners` (content.ts lines 180–219). -/
def attachEventListeners (s : ManagerState) : ManagerState × Bool :=
  match s.video with
  | none => (s, false)
  | some _ =>
    ({ s with
        timeupdateListeners := s.timeupdateListeners + 1
        resizeObserver := true
        scrollHandler := true
        fullscreenHandler := true },
     true)

/-- Model of `handleFullscreenChange` (content.ts lines 221–239). -/
def handleFullscreenChange (env : DomEnv) (doc : Doc) (s : ManagerState) : Doc × ManagerState :=
  let wasFullscreen := s.isFullscreen
  let s := { s with isFullscreen := doc.fullscreenElement.isSome }
  if wasFullscreen ≠ s.isFullscreen then
    match s.shadowHost with
    | some host =>
      let doc := detachHost doc host.id
      let (doc, s) := appendSubtitleElement doc s
      let s := (updateSubtitlePosition env s).1
      (doc, s)
    | none => (doc, s)
  else
    (doc, s)

/-- The default settings record of `loadSettings` (content.ts lines 62–74). -/
def defaultSettings : SubtitleSettings :=
  { syncOffset := JSNumber.num 0
    fontSize := 20
    fontColor := "#ffffff"
    background := false
    backgroundColor := "#000000"
    fontFamily := "Arial, sans-serif"
    offsetFromBottom := 60
    textShadow := true
    shadowColor := "#000000"
    verticalPadding := 8
    horizontalPadding := 8 }

/-- Model of `loadSettings` (content.ts lines 55–79).  `storageResult` is the
outcome of `chrome.storage.local.get("subtitleSettings")`: `.error` when
the read throws (the error is caught and logged, state untouched),
otherwise the stored record if present. -/
def loadSettings (storageResult : Except Unit (Option SubtitleSettings))
    (s : ManagerState) : ManagerState :=
  match storageResult with
  | Except.ok (some st) => { s with settings := some st }
  | Except.ok none => { s with settings := some defaultSettings }
  | Except.error _ => s

/-- Model of `init` (content.ts lines 37–53). -/
def init (env : DomEnv) (storageResult : Except Unit (Option SubtitleSettings))
    (doc : Doc) (s : ManagerState) (target : VideoTarget) (subtitles : List Subtitle)
    (newId : Nat) : Doc × ManagerState × Bool :=
  let s := { s with subtitles := subtitles }
  let s := loadSettings storageResult s
  let s := { s with video := findTargetVideo target doc.videos }
  match s.video with
  | none => (doc, s, false)
  | some _ =>
    let (doc, s, _) := addSubtitleElement env doc s newId
    let (s, _) := attachEventListeners s
    (doc, s, true)

/-- Model of `updateSettings` (content.ts lines 81–88). -/
def updateSettings (env : DomEnv) (s : ManagerState) (settings : SubtitleSettings) :
    ManagerState :=
  let s := { s with settings := some settings }
  match s.subtitleElement with
  | some _ =>
    let s := applyStyles s
    let s := (updateSubtitlePosition env s).1
    (updateSubtitleContent s).1
  | none => s

/-- The interval-containment predicate of the caption lookup:
`start <= t` and `t <= end`, inclusive at both ends. -/
def containsTime (sub : Subtitle) (t : ℚ) : Prop :=
  sub.start ≤ t ∧ t ≤ sub.«end»

instance (sub : Subtitle) (t : ℚ) : Decidable (containsTime sub t) := by
  unfold containsTime; infer_instance

/-- Parents the tree currently gives to host node `hostId`. -/
def hostParents (doc : Doc) (hostId : Nat) : List MountParent :=
  (doc.attachedHosts.filter (fun p => p.1 = hostId)).map Prod.snd

/-- Concrete content node for the C1 witness. -/
def c1Element : ContentNode := { textContent := none, display := none, style := none }

/-- Concrete video for the C1 witness. -/
def c1Video : VideoElem := { id := "v", currentTime := 1 }

/-- Concrete manager state for the C1 witness. -/
def c1State : ManagerState :=
  { initialState with
      subtitles := [⟨0, 2, "Hi"⟩, ⟨2, 4, "Bye"⟩]
      video := some c1Video
      subtitleElement := some c1Element
      settings := some defaultSettings }

/-- Concrete manager state for the C6 witness. -/
def c6State : ManagerState :=
  { initialState with
      shadowHost := some { id := 0, top := none, left := none }
      video := some ⟨"v", 0⟩
      settings := some defaultSettings }

/-- DOM environment for the C6 witness. -/
def c6Env : DomEnv := { rectResult := Except.ok ⟨300, 40, 200⟩, scrollY := 10 }

/-- Expected shadow host after the C6 witness position update. -/
def c6Host : ShadowHostNode :=
  { id := 0
    top := some ((300 : ℚ) - defaultSettings.offsetFromBottom + 10)
    left := some ((40 : ℚ) + 200 / 2) }

/-- Concrete settings for the C8 witness: background toggle off with a
non-transparent configured color, shadow toggle on. -/
def c8Settings : SubtitleSettings :=
  { defaultSettings with
      background := false
      backgroundColor := "#123456"
      textShadow := true
      shadowColor := "#222222" }

/-- Concrete manager state for the C8 witness. -/
def c8State : ManagerState :=
  { initialState with
      subtitleElement := some { textContent := none, display := none, style := none }
      settings := some c8Settings }

/-- Document with no videos at all, for the C3 witness. -/
def c3Doc : Doc := { videos := [], fullscreenElement := none, attachedHosts := [] }

/-- DOM environment for the C3 witness. -/
def c3Env : DomEnv := { rectResult := Except.ok ⟨1, 1, 1⟩, scrollY := 0 }

/-- Document with one video, for the C9 witness. -/
def c9Doc : Doc := { videos := [⟨"v", 0⟩], fullscreenElement := none, attachedHosts := [] }

/-- DOM environment for the C9 witness. -/
def c9Env : DomEnv := { rectResult := Except.ok ⟨1, 1, 1⟩, scrollY := 0 }

/-- Document for the C7 witness: host 5 attached to the body while the
document reports fullscreen element 9. -/
def c7Doc : Doc :=
  { videos := [⟨"v", 0⟩]
    fullscreenElement := some 9
    attachedHosts := [(5, MountParent.body)] }

/-- DOM environment for the C7 witness. -/
def c7Env : DomEnv := { rectResult := Except.ok ⟨300, 40, 200⟩, scrollY := 0 }

/-- Manager state for the C7 witness: flag still records non-fullscreen. -/
def c7State : ManagerState :=
  { initialState with
      shadowHost := some ⟨5, none, none⟩
      video := some ⟨"v", 0⟩
      settings := some defaultSettings
      isFullscreen := false }

/-- Document for the C4 counterexample: one video, nothing attached. -/
def c4Doc : Doc := { videos := [⟨"v", 0⟩], fullscreenElement := none, attachedHosts := [] }

/-- DOM environment for the C4 counterexample. -/
def c4Env : DomEnv := { rectResult := Except.ok ⟨100, 0, 200⟩, scrollY := 0 }

/-- First init run of the C4 counterexample: fresh controller, the settings
load throws. -/
def c4Run1 : Doc × ManagerState × Bool :=
  init c4Env (Except.error ()) c4Doc initialState ⟨0, "d", none, none⟩ [⟨0, 2, "A"⟩] 1

/-- Second init run of the C4 counterexample, with a different caption list,
the settings load throwing again. -/
def c4Run2 : Doc × ManagerState × Bool :=
  init c4Env (Except.error ()) c4Run1.1 c4Run1.2.1 ⟨0, "d", none, none⟩ [⟨0, 2, "B"⟩] 2

/-- Parent under which `appendSubtitleElement` attaches the host, as a
function of the document's fullscreen element. -/
def currentParent (doc : Doc) : MountParent :=
  match doc.fullscreenElement with
  | some fid => MountParent.fullscreenElem fid
  | none => MountParent.body

/-- The settings snapshot held after `loadSettings` returns, as a function
of the storage outcome and the previous snapshot. -/
def storedSettings (stor : Except Unit (Option SubtitleSettings))
    (prev : Option SubtitleSettings) : Option SubtitleSettings :=
  match stor with
  | Except.ok (some st) => some st
  | Except.ok none => some defaultSettings
  | Except.error _ => prev

/-- Document for the C4 amended-claim witness. -/
def c4bDoc : Doc := { videos := [⟨"v", 1⟩], fullscreenElement := none, attachedHosts := [] }

/-- DOM environment for the C4 amended-claim witness. -/
def c4bEnv : DomEnv := { rectResult := Except.ok ⟨100, 0, 200⟩, scrollY := 0 }

/-- First init run of the C4 amended-claim witness (default settings). -/
def c4bRun1 : Doc × ManagerState × Bool :=
  init c4bEnv (Except.ok none) c4bDoc initialState ⟨0, "d", none, none⟩ [⟨0, 2, "A"⟩] 1

/-- Second init run of the C4 amended-claim witness, with a new caption list. -/
def c4bRun2 : Doc × ManagerState × Bool :=
  init c4bEnv (Except.ok none) c4bRun1.1 c4bRun1.2.1 ⟨0, "d", none, none⟩ [⟨0, 2, "B"⟩] 2

/-! ## Helper lemmas -/

/-- The boolean predicate of the caption scan agrees with `containsTime`. -/
theorem containsTime_decide (sub : Subtitle) (t : ℚ) :
    ((decide (sub.start ≤ t) && decide (sub.«end» ≥ t)) = true) ↔ containsTime sub t := by
  simp [containsTime, ge_iff_le, and_comm]

/-- The function `List.find?` returns the entry at index `i` when it satisfies the
predicate and no earlier entry does. -/
theorem find_first_of_min {α : Type} (p : α → Bool) :
    ∀ (l : List α) (i : Nat) (h : i < l.length),
      p (l.get ⟨i, h⟩) = true →
      (∀ j (hj : j < i), p (l.get ⟨j, Nat.lt_trans hj h⟩) = false) →
      l.find? p = some (l.get ⟨i, h⟩)
  | a :: _, 0, _, hp, _ => by
    simpa using List.find?_cons_of_pos _ hp
  | a :: t, i + 1, h, hp, hmin => by
    have ha0 : p a = false := hmin 0 (Nat.succ_pos i)
    have ha : ¬ p a = true := by simp [ha0]
    rw [List.find?_cons_of_neg t ha]
    exact find_first_of_min p t i (Nat.lt_of_succ_lt_succ h) hp
      (fun j hj => hmin (j + 1) (Nat.succ_lt_succ hj))

/-! ## C1: content synchronization -/

/-- C1: for every caption list, settings snapshot and playback time, when the
content node and the video reference exist, `updateSubtitleContent` computes
the adjusted time `t` and selects the first caption in list order whose
interval satisfies `start ≤ t ≤ end` (inclusive at both ends), displaying its
text and making the content node visible; if no caption's interval contains
`t` (in particular for the empty list), it clears the text and hides the
node. -/
theorem updateContent_first_match (s : ManagerState) (el : ContentNode) (v : VideoElem)
    (hel : s.subtitleElement = some el) (hv : s.video = some v) :
    (∀ (i : Nat) (h : i < s.subtitles.length),
        containsTime (s.subtitles.get ⟨i, h⟩) (adjustedTime v s.settings) →
        (∀ (j : Nat) (hj : j < i),
          ¬ containsTime (s.subtitles.get ⟨j, Nat.lt_trans hj h⟩) (adjustedTime v s.settings)) →
        updateSubtitleContent s =
          ({ s with subtitleElement := some { el with
              display := some "block",
              textContent := some (s.subtitles.get ⟨i, h⟩).text } }, true))
    ∧ ((∀ sub ∈ s.subtitles, ¬ containsTime sub (adjustedTime v s.settings)) →
        updateSubtitleContent s =
          ({ s with subtitleElement := some { el with
              textContent := none, display := some "none" } }, false)) := by
  constructor
  · intro i h hc hmin
    have hact : activeSubtitle s.subtitles (adjustedTime v s.settings) =
        some (s.subtitles.get ⟨i, h⟩) := by
      apply find_first_of_min
      · exact (containsTime_decide _ _).mpr hc
      · intro j hj
        have hj' : ¬ ((decide ((s.subtitles.get ⟨j, Nat.lt_trans hj h⟩).start ≤
            adjustedTime v s.settings) &&
            decide ((s.subtitles.get ⟨j, Nat.lt_trans hj h⟩).«end» ≥
            adjustedTime v s.settings)) = true) :=
          fun hb => hmin j hj ((containsTime_decide _ _).mp hb)
        simpa using hj'
    simp [updateSubtitleContent, hel, hv, hact]
  · intro hnone
    have hact : activeSubtitle s.subtitles (adjustedTime v s.settings) = none := by
      rw [activeSubtitle, List.find?_eq_none]
      intro x hx
      exact fun hb => hnone x hx ((containsTime_decide _ _).mp hb)
    simp [updateSubtitleContent, hel, hv, hact]

/-- Witness for C1: at playback time 1 with captions `[0,2] "Hi"` and
`[2,4] "Bye"`, the first caption is selected and displayed. -/
theorem updateContent_first_match_witness :
    c1State.subtitleElement = some c1Element ∧ c1State.video = some c1Video ∧
    updateSubtitleContent c1State =
      ({ c1State with subtitleElement := some { c1Element with
          display := some "block", textContent := some "Hi" } }, true) := by
  refine ⟨rfl, rfl, ?_⟩
  have h := (updateContent_first_match c1State c1Element c1Video rfl rfl).1 0 (by decide)
    (by norm_num [c1State, c1Video, initialState, defaultSettings, containsTime,
      adjustedTime, effectiveTimeOffset, isValidTimeOffset, JSNumber.toRat])
    (fun j hj => absurd hj (Nat.not_lt_zero j))
  exact h

/-! ## C2 and C10: target resolution -/

/-- Counterexample to C2 as stated: `videoId` is set (to the empty string,
which is a legal element id and is the id the DOM reports for a video
without an `id` attribute), a video with exactly that id exists at index 1,
yet resolution ignores `videoId` — `if (target.videoId)` is a truthiness
test, so the empty string falls through to the `videoIndex` branch and the
video at index 0 is chosen instead. -/
theorem findTargetVideo_empty_id_counterexample :
    findTargetVideo ⟨0, "", some 0, some ""⟩ [⟨"a", 0⟩, ⟨"", 0⟩] = some ⟨"a", 0⟩ ∧
    ([⟨"a", 0⟩, ⟨"", 0⟩] : List VideoElem).find? (fun v => decide (v.id = "")) =
      some ⟨"", 0⟩ ∧
    (⟨"a", 0⟩ : VideoElem).id ≠ "" := by
  refine ⟨rfl, rfl, ?_⟩
  decide

/-- C2 (amended): target resolution obeys the precedence
`videoId` > `videoIndex` > first video, with "videoId is set" read as the
code's truthiness test, i.e. set *and non-empty*: when `videoId` is a
non-empty string, the first video whose element id exactly equals it is
chosen regardless of `videoIndex`; when `videoId` is absent or empty and
`videoIndex` is set, the video at that positional index is chosen; when
both are absent, the first video is chosen. -/
theorem findTargetVideo_precedence (t : VideoTarget) (videos : List VideoElem) :
    (∀ vid, t.videoId = some vid → vid ≠ "" →
      findTargetVideo t videos = videos.find? (fun v => decide (v.id = vid)) ∧
      ∀ v, videos.find? (fun w => decide (w.id = vid)) = some v → v.id = vid)
    ∧ ((t.videoId = none ∨ t.videoId = some "") →
      (∀ i, t.videoIndex = some i → findTargetVideo t videos = jsElemAt videos i)
      ∧ (t.videoIndex = none → findTargetVideo t videos = videos.head?)) := by
  constructor
  · intro vid hvid hne
    constructor
    · simp [findTargetVideo, videoIdTruthy, hvid, hne]
    · intro v hv
      simpa using List.find?_some hv
  · intro hid
    have htr : videoIdTruthy t.videoId = false := by
      rcases hid with h | h <;> simp [videoIdTruthy, h]
    constructor
    · intro i hi
      simp [findTargetVideo, htr, hi]
    · intro hi
      simp [findTargetVideo, htr, hi]

/-- Witness for C2 (amended): with videos carrying ids `["", "v2", ""]` and
`videoId := "v2"`, resolution returns the first id match (index 1) in spite
of `videoIndex := 0`; with `videoId` absent, `videoIndex := 2` picks the
third video; with both absent, the first. -/
theorem findTargetVideo_precedence_witness :
    (⟨0, "d", some 0, some "v2"⟩ : VideoTarget).videoId = some "v2" ∧ "v2" ≠ "" ∧
    findTargetVideo ⟨0, "d", some 0, some "v2"⟩ [⟨"", 5⟩, ⟨"v2", 6⟩, ⟨"", 7⟩] =
      ([⟨"", 5⟩, ⟨"v2", 6⟩, ⟨"", 7⟩] : List VideoElem).find? (fun v => decide (v.id = "v2")) ∧
    (⟨0, "d", some 2, none⟩ : VideoTarget).videoId = none ∧
    findTargetVideo ⟨0, "d", some 2, none⟩ [⟨"", 5⟩, ⟨"v2", 6⟩, ⟨"", 7⟩] =
      jsElemAt [⟨"", 5⟩, ⟨"v2", 6⟩, ⟨"", 7⟩] 2 ∧
    findTargetVideo ⟨0, "d", none, none⟩ [⟨"", 5⟩, ⟨"v2", 6⟩, ⟨"", 7⟩] =
      ([⟨"", 5⟩, ⟨"v2", 6⟩, ⟨"", 7⟩] : List VideoElem).head? := by
  refine ⟨rfl, by decide, ?_, rfl, ?_, ?_⟩
  · exact ((findTargetVideo_precedence ⟨0, "d", some 0, some "v2"⟩ _).1 "v2" rfl
      (by decide)).1
  · exact ((findTargetVideo_precedence ⟨0, "d", some 2, none⟩ _).2 (Or.inl rfl)).1 2 rfl
  · exact ((findTargetVideo_precedence ⟨0, "d", none, none⟩ _).2 (Or.inl rfl)).2 rfl

/-- Counterexample to C10 as stated: `videoId` is set (to the empty string)
and matches no video's id, yet resolution does not fail — the truthiness
test skips the empty-string id and falls back to `videoIndex`, returning
the first video. -/
theorem findTargetVideo_unmatched_empty_id_counterexample :
    findTargetVideo ⟨0, "", some 0, some ""⟩ [⟨"a", 0⟩] = some ⟨"a", 0⟩ ∧
    (∀ v ∈ ([⟨"a", 0⟩] : List VideoElem), v.id ≠ "") := by
  refine ⟨rfl, ?_⟩
  decide

/-- C10 (amended): for every target whose `videoId` is set to a non-empty
string that matches no video element's id, resolution returns no video —
there is no fallback to `videoIndex` or to the first video, even when
`videoIndex` is set and valid or other videos exist. -/
theorem findTargetVideo_unmatched_id_none (t : VideoTarget) (videos : List VideoElem)
    (vid : String) (hvid : t.videoId = some vid) (hne : vid ≠ "")
    (hnomatch : ∀ v ∈ videos, v.id ≠ vid) :
    findTargetVideo t videos = none := by
  have hfind : videos.find? (fun v => decide (v.id = vid)) = none := by
    rw [List.find?_eq_none]
    intro x hx
    simpa using hnomatch x hx
  simp [findTargetVideo, videoIdTruthy, hvid, hne, hfind]

/-- Witness for C10 (amended): `videoId := "x"` matches neither of the two
videos, so resolution fails although `videoIndex := 0` is valid. -/
theorem findTargetVideo_unmatched_id_none_witness :
    (⟨0, "d", some 0, some "x"⟩ : VideoTarget).videoId = some "x" ∧ "x" ≠ "" ∧
    (∀ v ∈ ([⟨"a", 1⟩, ⟨"b", 2⟩] : List VideoElem), v.id ≠ "x") ∧
    findTargetVideo ⟨0, "d", some 0, some "x"⟩ [⟨"a", 1⟩, ⟨"b", 2⟩] = none := by
  refine ⟨rfl, by decide, by decide, ?_⟩
  exact findTargetVideo_unmatched_id_none ⟨0, "d", some 0, some "x"⟩ _ "x" rfl
    (by decide) (by decide)

/-! ## C5: malformed sync offset -/

/-- C5: a sync offset failing the validity check (here `NaN`) is treated as
zero: the effective offset is 0, so the adjusted time — and hence everything
`updateSubtitleContent` selects and displays, together with its return
value — is exactly what it would be with `syncOffset = 0`; the malformed
value is never propagated into the adjusted time. -/
theorem nan_offset_treated_as_zero (s : ManagerState) (st : SubtitleSettings) :
    effectiveTimeOffset (some { st with syncOffset := JSNumber.nan }) = 0
    ∧ (∀ v : VideoElem,
        adjustedTime v (some { st with syncOffset := JSNumber.nan }) =
        adjustedTime v (some { st with syncOffset := JSNumber.num 0 }))
    ∧ (updateSubtitleContent { s with settings := some { st with syncOffset := JSNumber.nan } }).1.subtitleElement =
      (updateSubtitleContent { s with settings := some { st with syncOffset := JSNumber.num 0 } }).1.subtitleElement
    ∧ (updateSubtitleContent { s with settings := some { st with syncOffset := JSNumber.nan } }).2 =
      (updateSubtitleContent { s with settings := some { st with syncOffset := JSNumber.num 0 } }).2 := by
  have hoff : effectiveTimeOffset (some { st with syncOffset := JSNumber.nan }) = 0 := by
    simp [effectiveTimeOffset, isValidTimeOffset]
  have hoff0 : effectiveTimeOffset (some { st with syncOffset := JSNumber.num 0 }) = 0 := by
    simp [effectiveTimeOffset, isValidTimeOffset, JSNumber.toRat]
  have hadj : ∀ v : VideoElem,
      adjustedTime v (some { st with syncOffset := JSNumber.nan }) =
      adjustedTime v (some { st with syncOffset := JSNumber.num 0 }) := by
    intro v
    simp [adjustedTime, hoff, hoff0]
  refine ⟨hoff, hadj, ?_, ?_⟩
  all_goals
    cases hel : s.subtitleElement with
    | none => simp [updateSubtitleContent, hel]
    | some el =>
      cases hv : s.video with
      | none => simp [updateSubtitleContent, hel, hv]
      | some v =>
        simp only [updateSubtitleContent, hel, hv, hadj]
        cases hact : activeSubtitle s.subtitles
            (adjustedTime v (some { st with syncOffset := JSNumber.num 0 })) <;>
          simp [hact]

/-! ## C6: position synchronization -/

/-- C6: when mount node, video reference and settings all exist,
`updateSubtitlePosition` sets the mount node's top to the video's
bounding-box bottom minus the configured bottom offset plus the current
vertical scroll position, and its left to the video's horizontal center;
if the geometry read throws, it returns `false` without throwing and leaves
the stored coordinates (and all other state) unchanged. -/
theorem updatePosition_geometry (env : DomEnv) (s : ManagerState)
    (host : ShadowHostNode) (v : VideoElem) (st : SubtitleSettings)
    (hh : s.shadowHost = some host) (hv : s.video = some v) (hs : s.settings = some st) :
    (∀ rect, env.rectResult = Except.ok rect →
      updateSubtitlePosition env s =
        ({ s with shadowHost := some { host with
            top := some (rect.bottom - st.offsetFromBottom + env.scrollY),
            left := some (rect.left + rect.width / 2) } }, true))
    ∧ (∀ e : Unit, env.rectResult = Except.error e →
      updateSubtitlePosition env s = (s, false)) := by
  constructor
  · intro rect hrect
    simp [updateSubtitlePosition, hh, hv, hs, hrect]
  · intro e hrect
    simp [updateSubtitlePosition, hh, hv, hs, hrect]

/-- Witness for C6: with a bounding box of bottom 300, left 40, width 200
and scroll position 10, the stored top is `300 - 60 + 10` and the stored
left is `40 + 200 / 2`. -/
theorem updatePosition_geometry_witness :
    c6State.shadowHost = some { id := 0, top := none, left := none } ∧
    c6State.video = some ⟨"v", 0⟩ ∧ c6State.settings = some defaultSettings ∧
    updateSubtitlePosition c6Env c6State =
      ({ c6State with shadowHost := some c6Host }, true) := by
  refine ⟨rfl, rfl, rfl, ?_⟩
  exact (updatePosition_geometry c6Env
    c6State { id := 0, top := none, left := none } ⟨"v", 0⟩ defaultSettings
    rfl rfl rfl).1 ⟨300, 40, 200⟩ rfl

/-! ## C8: style application -/

/-- C8: style application is a pure function of the settings snapshot — the
content node receives exactly `derivedStyle st`, whose background equals the
configured background color exactly when the background toggle is on and is
fully transparent otherwise, and whose text shadow is the fixed-offset
shadow `2px 2px 4px` in the configured shadow color exactly when the shadow
toggle is enabled and `none` otherwise. -/
theorem applyStyles_derivation (s : ManagerState) (el : ContentNode) (st : SubtitleSettings)
    (hel : s.subtitleElement = some el) (hst : s.settings = some st) :
    (applyStyles s).subtitleElement =
      some { el with style := some (derivedStyle st), display := none }
    ∧ (st.background = true → (derivedStyle st).backgroundColor = st.backgroundColor)
    ∧ (st.background = false → (derivedStyle st).backgroundColor = "transparent")
    ∧ (st.textShadow = true →
        (derivedStyle st).textShadow = "2px 2px 4px " ++ st.shadowColor)
    ∧ (st.textShadow = false → (derivedStyle st).textShadow = "none") := by
  refine ⟨?_, ?_, ?_, ?_, ?_⟩
  · simp [applyStyles, hel, hst]
  all_goals
    intro h
    simp [derivedStyle, h]

/-- Witness for C8: with the background toggle off the derived background is
transparent although the configured color is `#123456`, and with the shadow
toggle on the derived shadow uses the configured shadow color. -/
theorem applyStyles_derivation_witness :
    c8State.subtitleElement = some { textContent := none, display := none, style := none } ∧
    c8State.settings = some c8Settings ∧
    (applyStyles c8State).subtitleElement =
      some { textContent := none, display := none, style := some (derivedStyle c8Settings) } ∧
    (derivedStyle c8Settings).backgroundColor = "transparent" ∧
    (derivedStyle c8Settings).textShadow = "2px 2px 4px " ++ "#222222" := by
  have h := applyStyles_derivation c8State
    { textContent := none, display := none, style := none } c8Settings rfl rfl
  exact ⟨rfl, rfl, h.1, h.2.2.1 rfl, by
    have := h.2.2.2.1 (by rfl)
    simpa [c8Settings] using this⟩

/-! ## C3: init failure when no video matches -/

/-- C3: for every prior controller state, when target resolution finds no
matching video, `init` returns `false`, and in that run it creates no render
surface (the document tree and the surface fields are untouched) and
attaches no listeners. -/
theorem init_target_not_found (env : DomEnv) (stor : Except Unit (Option SubtitleSettings))
    (doc : Doc) (s : ManagerState) (target : VideoTarget) (subs : List Subtitle) (newId : Nat)
    (h : findTargetVideo target doc.videos = none) :
    (init env stor doc s target subs newId).2.2 = false
    ∧ (init env stor doc s target subs newId).1 = doc
    ∧ (init env stor doc s target subs newId).2.1.shadowHost = s.shadowHost
    ∧ (init env stor doc s target subs newId).2.1.shadowRoot = s.shadowRoot
    ∧ (init env stor doc s target subs newId).2.1.subtitleElement = s.subtitleElement
    ∧ (init env stor doc s target subs newId).2.1.resizeObserver = s.resizeObserver
    ∧ (init env stor doc s target subs newId).2.1.scrollHandler = s.scrollHandler
    ∧ (init env stor doc s target subs newId).2.1.fullscreenHandler = s.fullscreenHandler
    ∧ (init env stor doc s target subs newId).2.1.timeupdateListeners = s.timeupdateListeners := by
  cases stor with
  | ok r => cases r <;> simp [init, loadSettings, h]
  | error e => simp [init, loadSettings, h]

/-- Witness for C3: on a document with no videos, `init` fails and leaves
document and surface state untouched. -/
theorem init_target_not_found_witness :
    findTargetVideo ⟨0, "d", none, none⟩ c3Doc.videos = none ∧
    (init c3Env (Except.ok none) c3Doc initialState ⟨0, "d", none, none⟩ [] 1).2.2 = false ∧
    (init c3Env (Except.ok none) c3Doc initialState ⟨0, "d", none, none⟩ [] 1).1 = c3Doc ∧
    (init c3Env (Except.ok none) c3Doc initialState ⟨0, "d", none, none⟩ [] 1).2.1.shadowHost
      = initialState.shadowHost := by
  have h := init_target_not_found c3Env (Except.ok none) c3Doc initialState
    ⟨0, "d", none, none⟩ [] 1 rfl
  exact ⟨rfl, h.1, h.2.1, h.2.2.1⟩

/-! ## C9: settings-load failure degrades gracefully -/

/-- C9: when the settings load during init throws, the error is caught and
initialization continues (the run still resolves the target and reports
success accordingly) with settings left unset; and while settings remain
unset, every operation that requires settings — render-surface
construction, style application, position update — is a no-op. -/
theorem loadFailure_degrades (env : DomEnv) (doc : Doc) (s : ManagerState)
    (target : VideoTarget) (subs : List Subtitle) (newId : Nat)
    (hset : s.settings = none) :
    (init env (Except.error ()) doc s target subs newId).2.1.settings = none
    ∧ (init env (Except.error ()) doc s target subs newId).2.2 =
        (findTargetVideo target doc.videos).isSome
    ∧ (∀ (d₂ : Doc) (s₂ : ManagerState) (nid : Nat), s₂.settings = none →
        addSubtitleElement env d₂ s₂ nid = (d₂, s₂, false))
    ∧ (∀ s₂ : ManagerState, s₂.settings = none → applyStyles s₂ = s₂)
    ∧ (∀ s₂ : ManagerState, s₂.settings = none →
        updateSubtitlePosition env s₂ = (s₂, false)) := by
  refine ⟨?_, ?_, ?_, ?_, ?_⟩
  · cases hv : findTargetVideo target doc.videos with
    | none => simp [init, loadSettings, hv, hset]
    | some v =>
      simp [init, loadSettings, hv, hset, addSubtitleElement, attachEventListeners]
  · cases hv : findTargetVideo target doc.videos with
    | none => simp [init, loadSettings, hv, hset]
    | some v =>
      simp [init, loadSettings, hv, hset, addSubtitleElement, attachEventListeners]
  · intro doc₂ s₂ nid h₂
    cases hv2 : s₂.video <;> simp [addSubtitleElement, hv2, h₂]
  · intro s₂ h₂
    cases hel : s₂.subtitleElement <;> simp [applyStyles, hel, h₂]
  · intro s₂ h₂
    cases hh : s₂.shadowHost <;> cases hv2 : s₂.video <;>
      simp [updateSubtitlePosition, hh, hv2, h₂]

/-- Witness for C9: a failing settings load on a fresh controller leaves
settings unset while init still succeeds on a document with a video. -/
theorem loadFailure_degrades_witness :
    initialState.settings = none ∧
    (init c9Env (Except.error ()) c9Doc initialState ⟨0, "d", none, none⟩ [] 1).2.1.settings
      = none ∧
    (init c9Env (Except.error ()) c9Doc initialState ⟨0, "d", none, none⟩ [] 1).2.2 =
      (findTargetVideo ⟨0, "d", none, none⟩ c9Doc.videos).isSome := by
  have h := loadFailure_degrades c9Env c9Doc initialState ⟨0, "d", none, none⟩ [] 1 rfl
  exact ⟨rfl, h.1, h.2.1⟩

/-! ## C7: fullscreen transition handling -/

/-- A list first filtered to exclude key `i` contains no entry with key `i`. -/
theorem filter_ne_filter_eq_nil (i : Nat) (l : List (Nat × MountParent)) :
    (l.filter (fun q => q.1 ≠ i)).filter (fun q => q.1 = i) = [] := by
  induction l with
  | nil => rfl
  | cons a t ih =>
    by_cases h : a.1 = i <;> simp [h, ih]

/-- Detaching a host and re-attaching it under `p` leaves it with exactly
the single parent `p`. -/
theorem hostParents_attach_detach (doc : Doc) (i : Nat) (p : MountParent) :
    hostParents (attachHost (detachHost doc i) i p) i = [p] := by
  simp [hostParents, attachHost, detachHost, List.filter_append,
    filter_ne_filter_eq_nil]

/-- The position update only ever rewrites the stored coordinates: all
other state, and the host's identity, are preserved. -/
theorem updateSubtitlePosition_frame (env : DomEnv) (s : ManagerState) :
    (updateSubtitlePosition env s).1.subtitles = s.subtitles
    ∧ (updateSubtitlePosition env s).1.video = s.video
    ∧ (updateSubtitlePosition env s).1.subtitleElement = s.subtitleElement
    ∧ (updateSubtitlePosition env s).1.settings = s.settings
    ∧ (updateSubtitlePosition env s).1.isFullscreen = s.isFullscreen
    ∧ (updateSubtitlePosition env s).1.shadowHost.map ShadowHostNode.id =
        s.shadowHost.map ShadowHostNode.id := by
  unfold updateSubtitlePosition
  split
  · split <;> simp_all
  · simp

/-- The exact result of `handleFullscreenChange` when the recorded flag
differs from the current fullscreen state and a shadow host exists. -/
theorem handleFullscreenChange_changed (env : DomEnv) (doc : Doc) (s : ManagerState)
    (host : ShadowHostNode) (hsh : s.shadowHost = some host)
    (hne : s.isFullscreen ≠ doc.fullscreenElement.isSome) :
    handleFullscreenChange env doc s =
      (attachHost (detachHost doc host.id) host.id
        (match doc.fullscreenElement with
         | some fid => MountParent.fullscreenElem fid
         | none => MountParent.body),
       (updateSubtitlePosition env
         { s with isFullscreen := doc.fullscreenElement.isSome }).1) := by
  unfold handleFullscreenChange
  rw [if_pos (by simpa using hne)]
  cases hfe : doc.fullscreenElement with
  | none => simp [hsh, appendSubtitleElement, detachHost, hfe]
  | some fid => simp [hsh, appendSubtitleElement, detachHost, hfe]

/-- C7: on a fullscreen-change notification the controller recomputes the
fullscreen flag; when it is unchanged nothing moves; when it changed and a
mount node exists, the node is detached and re-appended — under the
fullscreen element's subtree when now fullscreen, else under the document
body — so that it has exactly one parent afterwards, and the position is
then recomputed from the current geometry. -/
theorem fullscreenChange_reparents (env : DomEnv) (doc : Doc) (s : ManagerState) :
    (handleFullscreenChange env doc s).2.isFullscreen = doc.fullscreenElement.isSome
    ∧ (s.isFullscreen = doc.fullscreenElement.isSome →
        handleFullscreenChange env doc s = (doc, s))
    ∧ (∀ host, s.shadowHost = some host →
        s.isFullscreen ≠ doc.fullscreenElement.isSome →
        hostParents (handleFullscreenChange env doc s).1 host.id =
          [match doc.fullscreenElement with
           | some fid => MountParent.fullscreenElem fid
           | none => MountParent.body]
        ∧ (∀ v st rect, s.video = some v → s.settings = some st →
            env.rectResult = Except.ok rect →
            ∃ host₂, (handleFullscreenChange env doc s).2.shadowHost = some host₂
              ∧ host₂.id = host.id
              ∧ host₂.top = some (rect.bottom - st.offsetFromBottom + env.scrollY)
              ∧ host₂.left = some (rect.left + rect.width / 2))) := by
  refine ⟨?_, ?_, ?_⟩
  · by_cases hfs : s.isFullscreen = doc.fullscreenElement.isSome
    · unfold handleFullscreenChange
      rw [if_neg (by simpa using hfs)]
    · cases hsh : s.shadowHost with
      | none =>
        unfold handleFullscreenChange
        rw [if_pos (by simpa using hfs)]
        simp [hsh]
      | some host =>
        rw [handleFullscreenChange_changed env doc s host hsh hfs]
        simpa using (updateSubtitlePosition_frame env
          { s with isFullscreen := doc.fullscreenElement.isSome }).2.2.2.2.1
  · intro hfs
    unfold handleFullscreenChange
    rw [if_neg (by simpa using hfs)]
    rw [← hfs]
  · intro host hsh hne
    rw [handleFullscreenChange_changed env doc s host hsh hne]
    constructor
    · exact hostParents_attach_detach doc host.id _
    · intro v st rect hv hs hrect
      refine ⟨{ host with
          top := some (rect.bottom - st.offsetFromBottom + env.scrollY),
          left := some (rect.left + rect.width / 2) }, ?_, rfl, rfl, rfl⟩
      simp [updateSubtitlePosition, hsh, hv, hs, hrect]

/-- Witness for C7: entering fullscreen moves host 5 under the fullscreen
element, leaving it with exactly that one parent, and the host survives
with its identity. -/
theorem fullscreenChange_reparents_witness :
    c7State.shadowHost = some ⟨5, none, none⟩ ∧
    c7State.isFullscreen ≠ c7Doc.fullscreenElement.isSome ∧
    hostParents (handleFullscreenChange c7Env c7Doc c7State).1 5 =
      [MountParent.fullscreenElem 9] ∧
    (handleFullscreenChange c7Env c7Doc c7State).2.shadowHost.map ShadowHostNode.id
      = some 5 := by
  have h := (fullscreenChange_reparents c7Env c7Doc c7State).2.2 ⟨5, none, none⟩ rfl
    (by decide)
  refine ⟨rfl, by decide, ?_, ?_⟩
  · simpa using h.1
  · obtain ⟨host₂, hsh₂, hid₂, _, _⟩ := h.2 ⟨"v", 0⟩ defaultSettings ⟨300, 40, 200⟩
      rfl rfl rfl
    rw [hsh₂]
    simp [hid₂]

/-! ## C4: idempotent re-init and teardown -/

/-- Counterexample to C4 as stated: both init calls succeed (they resolve
the video and return `true`) with different caption lists, yet zero — not
exactly one — render surfaces are attached afterwards, because both
settings loads threw, settings stayed unset, and `addSubtitleElement`
bailed out before building a surface. -/
theorem init_twice_counterexample :
    c4Run1.2.2 = true ∧ c4Run2.2.2 = true ∧
    ([⟨0, 2, "A"⟩] : List Subtitle) ≠ [⟨0, 2, "B"⟩] ∧
    c4Run2.1.attachedHosts = [] := by
  refine ⟨rfl, rfl, by decide, rfl⟩

/-- Full characterization of a successful `init` run: returns `true`, leaves
the video list and fullscreen element alone, attaches exactly one fresh
host (the prior host, if any, is detached first), and ends with the video,
settings, caption list, host identity and content text determined by the
inputs. -/
theorem init_ok_spec (env : DomEnv) (stor : Except Unit (Option SubtitleSettings))
    (doc : Doc) (s : ManagerState) (t : VideoTarget) (subs : List Subtitle) (newId : Nat)
    (v : VideoElem) (st : SubtitleSettings)
    (hv : findTargetVideo t doc.videos = some v)
    (hst : storedSettings stor s.settings = some st) :
    (init env stor doc s t subs newId).2.2 = true
    ∧ (init env stor doc s t subs newId).1.videos = doc.videos
    ∧ (init env stor doc s t subs newId).1.fullscreenElement = doc.fullscreenElement
    ∧ (init env stor doc s t subs newId).1.attachedHosts =
        ((match s.shadowHost with
          | some h => detachHost doc h.id
          | none => doc).attachedHosts.filter (fun q => q.1 ≠ newId))
          ++ [(newId, currentParent doc)]
    ∧ (init env stor doc s t subs newId).2.1.video = some v
    ∧ (init env stor doc s t subs newId).2.1.settings = some st
    ∧ (init env stor doc s t subs newId).2.1.subtitles = subs
    ∧ (∃ host, (init env stor doc s t subs newId).2.1.shadowHost = some host
        ∧ host.id = newId)
    ∧ (∃ el₂, (init env stor doc s t subs newId).2.1.subtitleElement = some el₂
        ∧ el₂.textContent =
            (activeSubtitle subs (adjustedTime v (some st))).map Subtitle.text) := by
  cases stor with
  | error e =>
    have hset : s.settings = some st := by simpa [storedSettings] using hst
    cases hsh : s.shadowHost <;> cases hfe : doc.fullscreenElement <;>
      cases hrect : env.rectResult <;>
        cases hact : activeSubtitle subs (adjustedTime v (some st)) <;>
          simp [init, loadSettings, addSubtitleElement, removeSubtitleElement,
            appendSubtitleElement, applyStyles, updateSubtitlePosition,
            updateSubtitleContent, attachHost, detachHost, currentParent,
            attachEventListeners, hv, hset, hsh, hfe, hrect, hact]
  | ok r =>
    cases r with
    | none =>
      have hdef : st = defaultSettings := by
        have := hst
        simp [storedSettings] at this
        exact this.symm
      subst hdef
      cases hsh : s.shadowHost <;> cases hfe : doc.fullscreenElement <;>
        cases hrect : env.rectResult <;>
          cases hact : activeSubtitle subs (adjustedTime v (some defaultSettings)) <;>
            simp [init, loadSettings, addSubtitleElement, removeSubtitleElement,
              appendSubtitleElement, applyStyles, updateSubtitlePosition,
              updateSubtitleContent, attachHost, detachHost, currentParent,
              attachEventListeners, hv, hsh, hfe, hrect, hact]
    | some st₀ =>
      have hst₀ : st₀ = st := by simpa [storedSettings] using hst
      subst hst₀
      cases hsh : s.shadowHost <;> cases hfe : doc.fullscreenElement <;>
        cases hrect : env.rectResult <;>
          cases hact : activeSubtitle subs (adjustedTime v (some st₀)) <;>
            simp [init, loadSettings, addSubtitleElement, removeSubtitleElement,
              appendSubtitleElement, applyStyles, updateSubtitlePosition,
              updateSubtitleContent, attachHost, detachHost, currentParent,
              attachEventListeners, hv, hsh, hfe, hrect, hact]

/-- A run of `init` whose target resolution fails reports failure. -/
theorem init_video_none (env : DomEnv) (stor : Except Unit (Option SubtitleSettings))
    (doc : Doc) (s : ManagerState) (t : VideoTarget) (subs : List Subtitle) (newId : Nat)
    (h : findTargetVideo t doc.videos = none) :
    (init env stor doc s t subs newId).2.2 = false := by
  cases stor with
  | ok r => cases r <;> simp [init, loadSettings, h]
  | error e => simp [init, loadSettings, h]

/-- C4 (amended): calling init while a prior render surface exists tears the
prior surface down before building the new one — teardown sets mount node,
isolation boundary and content node to null and detaches the mount node —
and, provided the first settings load did not leave settings unset (it
returned a stored or a default record), after two successful init calls with
different caption lists exactly one render surface is attached (the second
one) and its content node reflects only the second list's content. -/
theorem init_reinit_single_surface :
    (∀ (d : Doc) (s : ManagerState),
      (removeSubtitleElement d s).2.shadowHost = none
      ∧ (removeSubtitleElement d s).2.shadowRoot = false
      ∧ (removeSubtitleElement d s).2.subtitleElement = none
      ∧ (∀ host, s.shadowHost = some host →
          hostParents (removeSubtitleElement d s).1 host.id = []))
    ∧ (∀ (env₁ env₂ : DomEnv) (r₁ : Option SubtitleSettings)
        (stor₂ : Except Unit (Option SubtitleSettings)) (doc : Doc)
        (t₁ t₂ : VideoTarget) (subs₁ subs₂ : List Subtitle) (id₁ id₂ : Nat),
        doc.attachedHosts = [] → id₁ ≠ id₂ →
        (init env₁ (Except.ok r₁) doc initialState t₁ subs₁ id₁).2.2 = true →
        (init env₂ stor₂ (init env₁ (Except.ok r₁) doc initialState t₁ subs₁ id₁).1
            (init env₁ (Except.ok r₁) doc initialState t₁ subs₁ id₁).2.1
            t₂ subs₂ id₂).2.2 = true →
        (init env₂ stor₂ (init env₁ (Except.ok r₁) doc initialState t₁ subs₁ id₁).1
            (init env₁ (Except.ok r₁) doc initialState t₁ subs₁ id₁).2.1
            t₂ subs₂ id₂).1.attachedHosts = [(id₂, currentParent doc)]
        ∧ ∃ v₂ st₂ el₂,
            (init env₂ stor₂ (init env₁ (Except.ok r₁) doc initialState t₁ subs₁ id₁).1
              (init env₁ (Except.ok r₁) doc initialState t₁ subs₁ id₁).2.1
              t₂ subs₂ id₂).2.1.video = some v₂
            ∧ (init env₂ stor₂ (init env₁ (Except.ok r₁) doc initialState t₁ subs₁ id₁).1
                (init env₁ (Except.ok r₁) doc initialState t₁ subs₁ id₁).2.1
                t₂ subs₂ id₂).2.1.settings = some st₂
            ∧ (init env₂ stor₂ (init env₁ (Except.ok r₁) doc initialState t₁ subs₁ id₁).1
                (init env₁ (Except.ok r₁) doc initialState t₁ subs₁ id₁).2.1
                t₂ subs₂ id₂).2.1.subtitleElement = some el₂
            ∧ el₂.textContent =
                (activeSubtitle subs₂ (adjustedTime v₂ (some st₂))).map Subtitle.text) := by
  constructor
  · intro d s
    refine ⟨?_, ?_, ?_, ?_⟩
    · cases hsh : s.shadowHost <;> simp [removeSubtitleElement, hsh]
    · cases hsh : s.shadowHost <;> simp [removeSubtitleElement, hsh]
    · cases hsh : s.shadowHost <;> simp [removeSubtitleElement, hsh]
    · intro host hsh
      simp [removeSubtitleElement, hsh, hostParents, detachHost,
        filter_ne_filter_eq_nil]
  · intro env₁ env₂ r₁ stor₂ doc t₁ t₂ subs₁ subs₂ id₁ id₂ hdoc hids hok1 hok2
    cases hfv1 : findTargetVideo t₁ doc.videos with
    | none =>
      rw [init_video_none env₁ (Except.ok r₁) doc initialState t₁ subs₁ id₁ hfv1] at hok1
      exact Bool.noConfusion hok1
    | some v₁ =>
      obtain ⟨st₁, hst₁⟩ : ∃ st₁,
          storedSettings (Except.ok r₁) initialState.settings = some st₁ := by
        cases r₁ <;> exact ⟨_, rfl⟩
      have h1 := init_ok_spec env₁ (Except.ok r₁) doc initialState t₁ subs₁ id₁ v₁ st₁
        hfv1 hst₁
      obtain ⟨-, hvids1, hfe1, hattach1, -, hsetting1, -, hhost1, -⟩ := h1
      obtain ⟨host₁, hhostEq, hhostId⟩ := hhost1
      have hdoc1 : (init env₁ (Except.ok r₁) doc initialState t₁ subs₁ id₁).1.attachedHosts
          = [(id₁, currentParent doc)] := by
        simpa [initialState, hdoc] using hattach1
      cases hfv2 : findTargetVideo t₂
          (init env₁ (Except.ok r₁) doc initialState t₁ subs₁ id₁).1.videos with
      | none =>
        rw [init_video_none env₂ stor₂ _ _ t₂ subs₂ id₂ hfv2] at hok2
        exact Bool.noConfusion hok2
      | some v₂ =>
        obtain ⟨st₂, hst₂⟩ : ∃ st₂,
            storedSettings stor₂
              (init env₁ (Except.ok r₁) doc initialState t₁ subs₁ id₁).2.1.settings
              = some st₂ := by
          cases stor₂ with
          | error e => exact ⟨st₁, by simpa [storedSettings] using hsetting1⟩
          | ok r₂ => cases r₂ <;> exact ⟨_, rfl⟩
        have h2 := init_ok_spec env₂ stor₂ _ _ t₂ subs₂ id₂ v₂ st₂ hfv2 hst₂
        obtain ⟨-, -, -, hattach2, hvideo2, hsetting2, -, -, hel2⟩ := h2
        constructor
        · rw [hattach2]
          simp only [hhostEq]
          have hd : (detachHost (init env₁ (Except.ok r₁) doc initialState t₁ subs₁ id₁).1
              host₁.id).attachedHosts = [] := by
            simp [detachHost, hdoc1, hhostId]
          have hcp : currentParent (init env₁ (Except.ok r₁) doc initialState t₁ subs₁ id₁).1
              = currentParent doc := by
            simp [currentParent, hfe1]
          rw [hd, hcp]
          simp
        · obtain ⟨el₂, helEq, htext⟩ := hel2
          exact ⟨v₂, st₂, el₂, hvideo2, hsetting2, helEq, htext⟩

/-- Witness for C4 (amended): two successful init runs with settings
available leave exactly the second surface attached, with a content node
present. -/
theorem init_reinit_single_surface_witness :
    c4bDoc.attachedHosts = [] ∧ (1 : Nat) ≠ 2 ∧
    c4bRun1.2.2 = true ∧ c4bRun2.2.2 = true ∧
    c4bRun2.1.attachedHosts = [(2, currentParent c4bDoc)] ∧
    c4bRun2.2.1.subtitleElement.isSome = true := by
  have h1 := init_ok_spec c4bEnv (Except.ok none) c4bDoc initialState ⟨0, "d", none, none⟩
    [⟨0, 2, "A"⟩] 1 ⟨"v", 1⟩ defaultSettings rfl rfl
  have hok1 : c4bRun1.2.2 = true := h1.1
  have hfv2 : findTargetVideo ⟨0, "d", none, none⟩ c4bRun1.1.videos = some ⟨"v", 1⟩ := by
    have hv : c4bRun1.1.videos = c4bDoc.videos := h1.2.1
    rw [hv]
    rfl
  have h2 := init_ok_spec c4bEnv (Except.ok none) c4bRun1.1 c4bRun1.2.1
    ⟨0, "d", none, none⟩ [⟨0, 2, "B"⟩] 2 ⟨"v", 1⟩ defaultSettings hfv2 rfl
  have hok2 : c4bRun2.2.2 = true := h2.1
  have h := init_reinit_single_surface.2 c4bEnv c4bEnv none (Except.ok none) c4bDoc
    ⟨0, "d", none, none⟩ ⟨0, "d", none, none⟩ [⟨0, 2, "A"⟩] [⟨0, 2, "B"⟩] 1 2 rfl
    (by decide) hok1 hok2
  refine ⟨rfl, by decide, hok1, hok2, h.1, ?_⟩
  obtain ⟨v₂, st₂, el₂, -, -, helEq, -⟩ := h.2
  have h' : c4bRun2.2.1.subtitleElement = some el₂ := helEq
  rw [h']
  rfl
